import Mathlib

/-!
Shallow embedding of the litellm-pgvector service (src/main.py,
src/embedding_service.py, src/config.py, src/models.py).

The service is an OpenAI-compatible vector-store HTTP API over PostgreSQL
with the pgvector extension.  The embedding below models, faithfully to the
source:

* request values appearing in JSON metadata and filters (`PyVal`), Python
  `str()` rendering and PostgreSQL `jsonb ->>` text extraction;
* the embedding-service wrapper `generate_embedding`
  (src/embedding_service.py lines 13-44);
* the similarity-score transform of `search_vector_store`
  (src/main.py line 290);
* the Python `or`-defaulting and 100-cap of result limits
  (src/main.py lines 142 and 245);
* single and batch embedding insertion with the statistics `UPDATE`
  statements they issue (src/main.py lines 322-402 and 405-511), including
  the PostgreSQL rule that one `UPDATE ... SET` list may not assign the same
  plain column twice ("multiple assignments to same column");
* the similarity-search pipeline (src/main.py lines 220-312) with an event
  trace recording external calls, the metadata-filter condition construction
  and the `ORDER BY distance ASC LIMIT n` execution;
* store listing with lookahead pagination (src/main.py lines 131-217),
  including Python slice semantics for `results[:limit]`.

Floating-point request numbers are modelled as rationals; the cosine
distance computation itself is delegated by the source to the database
(`<=>`), so search is parameterised by the distance function.
-/

namespace LitellmPgvector

/-- A scalar JSON value as it appears in request metadata and filters. -/
inductive PyVal where
  | s (v : String)
  | i (v : Int)
  | b (v : Bool)
deriving DecidableEq

/-- Python `str(value)` rendering, as applied to filter values at
src/main.py line 273 (`str(value)`); note `str(True) = "True"`. -/
def pyStr : PyVal → String
  | .s v => v
  | .i v => toString v
  | .b true => "True"
  | .b false => "False"

/-- PostgreSQL `jsonb ->> key` text extraction on a JSON object: strings are
returned unquoted, numbers in decimal, booleans lowercase; a missing key
yields SQL NULL (`none`). -/
def jsonbText (m : List (String × PyVal)) (k : String) : Option String :=
  (List.lookup k m).map fun v =>
    match v with
    | .s v => v
    | .i v => toString v
    | .b true => "true"
    | .b false => "false"

/-! ### Embedding service (src/embedding_service.py, src/config.py) -/

/-- Embedding configuration (src/config.py lines 16-21). -/
structure EmbeddingConfig where
  model : String
  base_url : String
  api_key : String
  dimensions : Nat
deriving DecidableEq

/-- Default `EmbeddingConfig` values from src/config.py. -/
def defaultEmbeddingConfig : EmbeddingConfig :=
  ⟨"text-embedding-ada-002", "http://localhost:4000", "sk-1234", 1536⟩

/-- `EmbeddingService.generate_embedding` (src/embedding_service.py lines
13-44).  The provider call `litellm.aembedding` is external; its outcome is
passed in as `providerResp`: `.error` when the call raised, otherwise the
list of embeddings in `response.data`.  The function takes
`response.data[0].embedding` (an empty `data` raises an index error),
validates its length against the configured dimensionality, and wraps every
raised exception into a `RuntimeError` message. -/
def generate_embedding (cfg : EmbeddingConfig)
    (providerResp : Except String (List (List Rat))) : Except String (List Rat) :=
  match providerResp with
  | .error e => .error ("Failed to generate embedding: " ++ e)
  | .ok data =>
    match data with
    | [] => .error "Failed to generate embedding: list index out of range"
    | emb :: _ =>
      if emb.length ≠ cfg.dimensions then
        .error ("Failed to generate embedding: Expected embedding dimension "
          ++ toString cfg.dimensions ++ ", got " ++ toString emb.length)
      else
        .ok emb

/-! ### Similarity score and result limits (src/main.py) -/

/-- src/main.py line 290: `similarity_score = max(0, 1 - (row['distance'] / 2))`. -/
def similarity_score (d : Rat) : Rat := max 0 (1 - d / 2)

/-- Python `x or d` on an optional integer: `None` and `0` are falsy and
replaced by the default `d`; every other value (negative values included)
passes through. -/
def pyIntOr (x : Option Int) (d : Int) : Int :=
  match x with
  | none => d
  | some v => if v = 0 then d else v

/-- src/main.py line 142: `limit = min(limit or 20, 100)` in `list_vector_stores`. -/
def list_effective_limit (l : Option Int) : Int := min (pyIntOr l 20) 100

/-- src/main.py line 245: `limit = min(request.limit or 20, 100)` in
`search_vector_store`. -/
def search_effective_limit (l : Option Int) : Int := min (pyIntOr l 20) 100

/-! ### Database rows -/

/-- The fixed-shape `file_counts` JSON object of a vector-store row. -/
structure FileCounts where
  in_progress : Nat
  completed : Nat
  failed : Nat
  cancelled : Nat
  total : Nat
deriving DecidableEq

/-- The zeroed counters a store is created with (src/main.py line 97). -/
def zeroCounts : FileCounts := ⟨0, 0, 0, 0, 0⟩

/-- A row of the `vector_stores` table.  Claim-irrelevant columns
(`expires_after`, `expires_at`, store `metadata`) are omitted. -/
structure StoreRow where
  id : String
  name : String
  file_counts : FileCounts
  status : String
  usage_bytes : Int
  last_active_at : Int
  created_at : Int
deriving DecidableEq

/-- A row of the `embeddings` table. -/
structure EmbeddingRow where
  id : String
  vector_store_id : String
  content : String
  embedding : List Rat
  metadata : List (String × PyVal)
deriving DecidableEq

/-- The two tables the service touches. -/
structure DbState where
  stores : List StoreRow
  embeddings : List EmbeddingRow
deriving DecidableEq

/-- HTTP-level failures raised by the handlers. -/
inductive ApiError where
  | notFound (detail : String)
  | badRequest (detail : String)
  | internal (detail : String)
deriving DecidableEq

/-! ### The statistics UPDATE statements

Both insertion handlers update the owning store's statistics with one raw
`UPDATE` whose `SET` list assigns (in source order)
`file_counts`, `file_counts` (again), `usage_bytes`, `last_active_at`
(src/main.py lines 368-387 and 468-488).  PostgreSQL rejects an `UPDATE`
whose `SET` list assigns the same plain column more than once, raising
"multiple assignments to same column", before any row is changed. -/

/-- Columns assigned by the `SET` list of the statistics `UPDATE` in
`create_embedding` (src/main.py lines 371-382), in source order. -/
def insertStatsSetColumns : List String :=
  ["file_counts", "file_counts", "usage_bytes", "last_active_at"]

/-- Columns assigned by the `SET` list of the statistics `UPDATE` in
`create_embeddings_batch` (src/main.py lines 471-482), in source order. -/
def batchStatsSetColumns : List String :=
  ["file_counts", "file_counts", "usage_bytes", "last_active_at"]

/-- Whether a `SET` list assigns some column twice. -/
def hasDupAssignments : List String → Bool
  | [] => false
  | c :: cs => cs.contains c || hasDupAssignments cs

/-- Execution of `UPDATE vector_stores SET ... WHERE id = $1`: PostgreSQL
first rejects duplicate plain-column assignments ("multiple assignments to
same column"); an accepted statement applies the combined `SET` effect
`eff` to every row whose `id` matches. -/
def pgRunUpdateWhereId (setCols : List String) (eff : StoreRow → StoreRow)
    (storeId : String) (stores : List StoreRow) : Except String (List StoreRow) :=
  if hasDupAssignments setCols then
    .error "multiple assignments to same column"
  else
    .ok (stores.map fun r => if r.id = storeId then eff r else r)

/-- The combined effect the `SET` expressions of the single-insert
statistics `UPDATE` compute (src/main.py lines 371-382): bump
`file_counts.completed` and `file_counts.total` by 1, add `LENGTH($2)`
(character length of the content text) to `usage_bytes`, refresh
`last_active_at` to `NOW()`. -/
def singleIngestEffect (content : String) (now : Int) (r : StoreRow) : StoreRow :=
  { r with
    file_counts :=
      { r.file_counts with
        completed := r.file_counts.completed + 1
        total := r.file_counts.total + 1 }
    usage_bytes := r.usage_bytes + content.length
    last_active_at := now }

/-- The combined effect the `SET` expressions of the batch statistics
`UPDATE` compute (src/main.py lines 471-482): bump `completed` and `total`
by the batch size `$2`, add the summed content length `$3` to
`usage_bytes`, refresh `last_active_at`. -/
def batchIngestEffect (n totalLen : Nat) (now : Int) (r : StoreRow) : StoreRow :=
  { r with
    file_counts :=
      { r.file_counts with
        completed := r.file_counts.completed + n
        total := r.file_counts.total + n }
    usage_bytes := r.usage_bytes + totalLen
    last_active_at := now }

/-! ### Insertion handlers (src/main.py lines 322-511) -/

/-- The embedding-record payload returned by the insertion handlers. -/
structure EmbeddingResponse where
  id : String
  vector_store_id : String
  content : String
  metadata : List (String × PyVal)
  created_at : Int
deriving DecidableEq

/-- Database statements issued by an insertion handler, in order. -/
inductive IngestEvent where
  | storeCheck
  | insertStatement (rows : Nat)
  | statsUpdate
deriving DecidableEq

/-- One item of a batch-insert request (src/models.py `EmbeddingCreateRequest`). -/
structure EmbeddingItem where
  content : String
  embedding : List Rat
  metadata : List (String × PyVal)
deriving DecidableEq

/-- `create_embedding` (src/main.py lines 322-402).  Checks store existence,
inserts one row (`gen_random_uuid()` modelled by the fresh id `newId`,
`NOW()` by `now`), then issues the statistics `UPDATE`.  The insert and the
update are two separate statements without a transaction, so a failing
update leaves the inserted row in place; the raised exception is converted
to a 500 response. -/
def create_embedding (st : DbState) (newId : String) (now : Int)
    (vector_store_id content : String) (embedding : List Rat)
    (metadata : List (String × PyVal)) :
    (Except ApiError EmbeddingResponse × DbState) × List IngestEvent :=
  if st.stores.any fun r => r.id = vector_store_id then
    let row : EmbeddingRow := ⟨newId, vector_store_id, content, embedding, metadata⟩
    let st1 : DbState := { st with embeddings := st.embeddings ++ [row] }
    match pgRunUpdateWhereId insertStatsSetColumns
        (singleIngestEffect content now) vector_store_id st1.stores with
    | .error e =>
        ((.error (.internal ("Failed to create embedding: " ++ e)), st1),
         [.storeCheck, .insertStatement 1, .statsUpdate])
    | .ok stores2 =>
        ((.ok ⟨newId, vector_store_id, content, metadata, now⟩,
          { st1 with stores := stores2 }),
         [.storeCheck, .insertStatement 1, .statsUpdate])
  else
    ((.error (.notFound "Vector store not found"), st), [.storeCheck])

/-- The `VALUES` placeholder groups built by the loop at src/main.py lines
436-445: item `i` of the batch contributes one group of four consecutive
parameters starting at `p + 4*i`. -/
def batchValuesClauses : Nat → Nat → List String
  | 0, _ => []
  | n + 1, p =>
      ("(gen_random_uuid(), $" ++ toString p ++ ", $" ++ toString (p + 1)
        ++ ", $" ++ toString (p + 2) ++ "::vector, $" ++ toString (p + 3) ++ ", NOW())")
        :: batchValuesClauses n (p + 4)

/-- `create_embeddings_batch` (src/main.py lines 405-511).  Checks store
existence once, rejects an empty batch with a 400, inserts all rows with a
single multi-row `INSERT` (fresh ids `newIds`), computes the summed content
length, then issues one aggregate statistics `UPDATE`.  As in the single
case, a failing update leaves the inserted rows in place and yields a 500. -/
def create_embeddings_batch (st : DbState) (newIds : List String) (now : Int)
    (vector_store_id : String) (items : List EmbeddingItem) :
    (Except ApiError (List EmbeddingResponse) × DbState) × List IngestEvent :=
  if st.stores.any fun r => r.id = vector_store_id then
    if items.isEmpty then
      ((.error (.badRequest "No embeddings provided"), st), [.storeCheck])
    else
      let rows : List EmbeddingRow :=
        (items.zip newIds).map fun p =>
          ⟨p.2, vector_store_id, p.1.content, p.1.embedding, p.1.metadata⟩
      let st1 : DbState := { st with embeddings := st.embeddings ++ rows }
      let total_content_length := (items.map fun it => it.content.length).sum
      match pgRunUpdateWhereId batchStatsSetColumns
          (batchIngestEffect items.length total_content_length now)
          vector_store_id st1.stores with
      | .error e =>
          ((.error (.internal ("Failed to create embeddings batch: " ++ e)), st1),
           [.storeCheck, .insertStatement items.length, .statsUpdate])
      | .ok stores2 =>
          ((.ok (rows.map fun r => ⟨r.id, r.vector_store_id, r.content, r.metadata, now⟩),
            { st1 with stores := stores2 }),
           [.storeCheck, .insertStatement items.length, .statsUpdate])
  else
    ((.error (.notFound "Vector store not found"), st), [.storeCheck])

/-! ### Similarity search (src/main.py lines 220-312) -/

/-- External calls performed while serving a search request, in order. -/
inductive SearchEvent where
  | providerCall (query : String)
  | similarityQuery
deriving DecidableEq

/-- One metadata-filter equality condition of the similarity query: the two
query parameters bound by the loop at src/main.py lines 270-274, namely the
filter key and `str(value)`. -/
structure FilterCond where
  keyParam : String
  valParam : String
deriving DecidableEq

/-- The condition list built from `request.filters` (src/main.py lines
268-277): exactly one equality condition per key/value pair, appended to the
`WHERE` clause with `AND`. -/
def buildFilterConds (filters : List (String × PyVal)) : List FilterCond :=
  filters.map fun kv => ⟨kv.1, pyStr kv.2⟩

/-- The SQL text of one filter condition (f-string at src/main.py line 272),
with `p` the parameter index of the key and `p + 1` that of the value. -/
def renderFilterCond (metadataField : String) (p : Nat) : String :=
  metadataField ++ "->>$" ++ toString p ++ " = $" ++ toString (p + 1)

/-- The rendered condition fragments in source order, with the parameter
counter threaded exactly as in the loop (`param_count += 2` per pair). -/
def renderFilterFragment (metadataField : String) : Nat → List (String × PyVal) → List String
  | _, [] => []
  | p, _ :: rest => renderFilterCond metadataField p :: renderFilterFragment metadataField (p + 2) rest

/-- SQL evaluation of one condition `metadata->>key = value` on a row: the
`->>` extraction of a missing key is NULL, and `NULL = value` is not true,
so the row is excluded. -/
def evalFilterCond (c : FilterCond) (row : EmbeddingRow) : Bool :=
  match jsonbText row.metadata c.keyParam with
  | some t => t = c.valParam
  | none => false

/-- The full `WHERE` clause of the similarity query: the owning-store
equality conjoined (`AND`) with every filter condition. -/
def rowPassesWhere (storeId : String) (conds : List FilterCond)
    (row : EmbeddingRow) : Bool :=
  decide (row.vector_store_id = storeId) && conds.all fun c => evalFilterCond c row

/-- A selected row together with its computed `distance` column
(`embedding <=> $1::vector`). -/
structure SearchRow where
  row : EmbeddingRow
  distance : Rat
deriving DecidableEq

/-- One search result as built at src/main.py lines 287-305. -/
structure SearchResultOut where
  file_id : String
  filename : String
  score : Rat
  attributes : Option (List (String × PyVal))
  content : String
deriving DecidableEq

/-- The search response (src/main.py lines 307-312). -/
structure SearchResponse where
  search_query : String
  data : List SearchResultOut
  has_more : Bool
deriving DecidableEq

/-- Execution of the similarity query `... WHERE ... ORDER BY distance ASC
LIMIT lim`: the rows passing the `WHERE` clause, each with its distance to
the query vector, ordered by ascending distance, first `lim`.  A negative
`LIMIT` is a PostgreSQL error.  The distance computation `<=>` is the
database's; it enters as the function `dist` from the stored vector to the
distance. -/
def runSimilarityQuery (table : List EmbeddingRow) (dist : List Rat → Rat)
    (storeId : String) (conds : List FilterCond) (lim : Int) :
    Except String (List SearchRow) :=
  if lim < 0 then
    .error "LIMIT must not be negative"
  else
    let matching := (table.filter (rowPassesWhere storeId conds)).map
      fun r => SearchRow.mk r (dist r.embedding)
    .ok ((List.insertionSort (fun a b : SearchRow => a.distance ≤ b.distance) matching).take lim.toNat)

/-- `search_vector_store` (src/main.py lines 220-312).  Verifies the store
exists (404 otherwise), obtains the query embedding from the provider
(failures become a 500), builds the similarity query with the effective
limit and the metadata-filter conditions, executes it, and maps each row to
a scored result.  `attributes` carries the row metadata only when
`return_metadata` is truthy; `filename` is `metadata.get` with default
"document.txt".  The second component is the trace of external calls. -/
def search_vector_store (stores : List StoreRow) (table : List EmbeddingRow)
    (provider : Except String (List (List Rat))) (cfg : EmbeddingConfig)
    (dist : List Rat → Rat) (vector_store_id query : String)
    (limit : Option Int) (filters : List (String × PyVal))
    (return_metadata : Option Bool) :
    Except ApiError SearchResponse × List SearchEvent :=
  if stores.any fun r => r.id = vector_store_id then
    match generate_embedding cfg provider with
    | .error e => (.error (.internal ("Search failed: " ++ e)), [.providerCall query])
    | .ok _qvec =>
      let lim := search_effective_limit limit
      let conds := buildFilterConds filters
      match runSimilarityQuery table dist vector_store_id conds lim with
      | .error e =>
          (.error (.internal ("Search failed: " ++ e)),
           [.providerCall query, .similarityQuery])
      | .ok rows =>
          let results := rows.map fun sr =>
            SearchResultOut.mk sr.row.id
              (((List.lookup "filename" sr.row.metadata).map pyStr).getD "document.txt")
              (similarity_score sr.distance)
              (if return_metadata = some true then some sr.row.metadata else none)
              sr.row.content
          (.ok ⟨query, results, false⟩, [.providerCall query, .similarityQuery])
  else
    (.error (.notFound "Vector store not found"), [])

/-! ### Store listing (src/main.py lines 131-217) -/

/-- Python slice `l[:k]`, including negative-index semantics:
`l[:-1]` drops the last element, `l[:-n]` with `n ≥ len(l)` is empty. -/
def pySliceTo {α : Type} (l : List α) (k : Int) : List α :=
  if 0 ≤ k then l.take k.toNat
  else l.take ((l.length : Int) + k).toNat

/-- The pagination `WHERE` conditions of `list_vector_stores` (src/main.py
lines 158-166): `id > $after` and `id < $before`, text comparison on the
store id. -/
def listMatches (after before : Option String) (r : StoreRow) : Bool :=
  (match after with | some a => decide (a < r.id) | none => true) &&
  (match before with | some b => decide (r.id < b) | none => true)

/-- The store-list response (src/main.py lines 207-212). -/
structure ListResponse where
  data : List StoreRow
  first_id : Option String
  last_id : Option String
  has_more : Bool
deriving DecidableEq

/-- `list_vector_stores` (src/main.py lines 131-217).  Applies the
`or`-default and the 100-cap to `limit`, selects the matching stores ordered
by `created_at DESC` with `LIMIT limit + 1` (a lookahead row; a negative
SQL `LIMIT` is a PostgreSQL error surfacing as a 500), sets `has_more` when
more than `limit` rows came back, and removes the lookahead row with the
Python slice `results[:limit]`. -/
def list_vector_stores (stores : List StoreRow) (limit : Option Int)
    (after before : Option String) : Except ApiError ListResponse :=
  let lim := list_effective_limit limit
  if lim + 1 < 0 then
    .error (.internal "Failed to list vector stores: LIMIT must not be negative")
  else
    let sorted := List.insertionSort (fun a b : StoreRow => b.created_at ≤ a.created_at)
      (stores.filter (listMatches after before))
    let results := sorted.take (lim + 1).toNat
    let has_more := decide (lim < (results.length : Int))
    let page := if has_more then pySliceTo results lim else results
    .ok ⟨page, (page.head?).map (·.id), (page.getLast?).map (·.id), has_more⟩

/-! ### Concrete fixtures used by witness theorems -/

/-- A fresh store as created by `create_vector_store`: zeroed counters,
status "completed", zero usage. -/
def wStore : StoreRow := ⟨"s1", "docs", zeroCounts, "completed", 0, 0, 0⟩

/-- A database holding the single fresh store `wStore` and no embeddings. -/
def wState : DbState := ⟨[wStore], []⟩

/-- A stored embedding row in store `s1`. -/
def wRow : EmbeddingRow := ⟨"e1", "s1", "hi", [1, 0], []⟩

/-- An embedding configuration with dimensionality 2. -/
def wCfg : EmbeddingConfig := { defaultEmbeddingConfig with dimensions := 2 }

/-- A batch of three items with content lengths 5, 6 and 7. -/
def wItems : List EmbeddingItem :=
  [⟨"12345", [1], []⟩, ⟨"123456", [2], []⟩, ⟨"1234567", [3], []⟩]

/-- Two stores with distinct creation times, for pagination witnesses. -/
def storeA : StoreRow := ⟨"a", "A", zeroCounts, "completed", 0, 0, 1⟩

/-- See `storeA`. -/
def storeB : StoreRow := ⟨"b", "B", zeroCounts, "completed", 0, 0, 2⟩

/-- Two metadata filters, for filter-construction witnesses. -/
def wFilters : List (String × PyVal) := [("type", .s "pdf"), ("page", .i 3)]

end LitellmPgvector

deriving instance DecidableEq for Except

namespace LitellmPgvector

/-! ### Helper lemmas -/

/-- The distance-to-score transform is monotone non-increasing. -/
theorem similarity_score_antitone {d1 d2 : Rat} (h : d1 ≤ d2) :
    similarity_score d2 ≤ similarity_score d1 := by
  unfold similarity_score
  apply max_le_max le_rfl
  linarith

/-- The batch `VALUES` clause has exactly one placeholder group per item. -/
theorem batchValuesClauses_length : ∀ n p, (batchValuesClauses n p).length = n := by
  intro n
  induction n with
  | zero => intro p; rfl
  | succ m ih => intro p; simp [batchValuesClauses, ih]

/-- One filter condition evaluates to the equality of the extracted metadata
text with the rendered filter value. -/
theorem evalFilterCond_decide (k v : String) (row : EmbeddingRow) :
    evalFilterCond ⟨k, v⟩ row = decide (jsonbText row.metadata k = some v) := by
  cases h : jsonbText row.metadata k <;> simp [evalFilterCond, h]

/-- The rendered filter fragment has one condition per filter pair. -/
theorem renderFilterFragment_length (mf : String) :
    ∀ (filters : List (String × PyVal)) (p : Nat),
      (renderFilterFragment mf p filters).length = filters.length := by
  intro filters
  induction filters with
  | nil => intro p; rfl
  | cons kv rest ih => intro p; simp [renderFilterFragment, ih]

/-- The i-th rendered condition uses the parameter pair at `p + 2*i`. -/
theorem renderFilterFragment_get (mf : String) :
    ∀ (filters : List (String × PyVal)) (p i : Nat), i < filters.length →
      (renderFilterFragment mf p filters)[i]? = some (renderFilterCond mf (p + 2 * i)) := by
  intro filters
  induction filters with
  | nil => intro p i h; simp at h
  | cons kv rest ih =>
    intro p i h
    cases i with
    | zero => simp [renderFilterFragment]
    | succ j =>
      have h2 : p + 2 + 2 * j = p + 2 * (j + 1) := by ring
      have := ih (p + 2) j (by simpa using h)
      simpa [renderFilterFragment, h2] using this

/-- Helper: the result list of every successful search response, unfolded to
the query pipeline (filter by store and metadata conditions, compute
distances, sort ascending, take the effective limit, map to scored
results). -/
theorem search_ok_data
    (stores : List StoreRow) (table : List EmbeddingRow)
    (provider : Except String (List (List Rat))) (cfg : EmbeddingConfig)
    (dist : List Rat → Rat) (sid q : String) (l : Option Int)
    (filt : List (String × PyVal)) (rm : Option Bool) (resp : SearchResponse)
    (h : (search_vector_store stores table provider cfg dist sid q l filt rm).1 = .ok resp) :
    resp.data = ((List.insertionSort (fun a b : SearchRow => a.distance ≤ b.distance)
        ((table.filter (rowPassesWhere sid (buildFilterConds filt))).map
          fun r => SearchRow.mk r (dist r.embedding))).take (search_effective_limit l).toNat).map
      (fun sr => SearchResultOut.mk sr.row.id
        (((List.lookup "filename" sr.row.metadata).map pyStr).getD "document.txt")
        (similarity_score sr.distance)
        (if rm = some true then some sr.row.metadata else none)
        sr.row.content) := by
  unfold search_vector_store at h
  by_cases hs : (stores.any fun r => r.id = sid) = true
  · rw [if_pos hs] at h
    cases hg : generate_embedding cfg provider with
    | error e => rw [hg] at h; simp at h
    | ok qv =>
      rw [hg] at h
      unfold runSimilarityQuery at h
      dsimp only at h
      by_cases hneg : search_effective_limit l < 0
      · rw [if_pos hneg] at h
        dsimp only at h
        simp at h
      · rw [if_neg hneg] at h
        dsimp only at h
        have h2 := (Except.ok.inj h).symm
        rw [h2]
  · rw [if_neg hs] at h
    simp at h

/-! ### Claim theorems -/

/-- C1: the claim says a successful single-record insert bumps the owning
store's `completed` and `total` by 1, adds the content length to
`usage_bytes` and refreshes `last_active_at` in one atomic update.  The code
cannot do this: the statistics `UPDATE` of `create_embedding` (src/main.py
lines 368-387) assigns the column `file_counts` twice in its `SET` list,
which PostgreSQL rejects ("multiple assignments to same column").  So for
every insert into an existing store the handler returns a 500 error, the
store row (counters, usage, `last_active_at`) is left completely unchanged,
and the already-inserted embedding row stays behind. -/
theorem create_embedding_stats_update_always_errors
    (st : DbState) (newId : String) (now : Int) (sid content : String)
    (emb : List Rat) (md : List (String × PyVal))
    (h : (st.stores.any fun r => r.id = sid) = true) :
    create_embedding st newId now sid content emb md =
      ((.error (.internal "Failed to create embedding: multiple assignments to same column"),
        { st with embeddings := st.embeddings ++ [⟨newId, sid, content, emb, md⟩] }),
       [.storeCheck, .insertStatement 1, .statsUpdate]) := by
  have hd : hasDupAssignments insertStatsSetColumns = true := by decide
  simp [create_embedding, h, pgRunUpdateWhereId, hd]

/-- C1 witness: inserting "hello world" into the fresh store `s1` yields the
500 error and leaves the store row untouched while the embedding row is
inserted. -/
theorem create_embedding_stats_update_always_errors_witness :
    create_embedding wState "e1" 5 "s1" "hello world" [1, 2] [] =
      ((.error (.internal "Failed to create embedding: multiple assignments to same column"),
        ⟨[wStore], [⟨"e1", "s1", "hello world", [1, 2], []⟩]⟩),
       [.storeCheck, .insertStatement 1, .statsUpdate]) :=
  create_embedding_stats_update_always_errors wState "e1" 5 "s1" "hello world" [1, 2] [] (by decide)

/-- C2: the claim says a non-empty batch is written by one store check, one
multi-row insert and one aggregate counter update.  The structural part
holds (one store check, a single `INSERT` carrying all rows with one
`VALUES` group per item), but the aggregate `UPDATE` (src/main.py lines
468-488) assigns `file_counts` twice in its `SET` list, which PostgreSQL
rejects, so the counters are never increased and the handler returns a 500
with the inserted rows left behind. -/
theorem create_embeddings_batch_stats_update_always_errors
    (st : DbState) (newIds : List String) (now : Int) (sid : String)
    (items : List EmbeddingItem)
    (h : (st.stores.any fun r => r.id = sid) = true) (hne : items ≠ []) :
    create_embeddings_batch st newIds now sid items =
      ((.error (.internal "Failed to create embeddings batch: multiple assignments to same column"),
        { st with embeddings := st.embeddings ++
            ((items.zip newIds).map fun p => ⟨p.2, sid, p.1.content, p.1.embedding, p.1.metadata⟩) }),
       [.storeCheck, .insertStatement items.length, .statsUpdate]) ∧
    (batchValuesClauses items.length 1).length = items.length := by
  have hd : hasDupAssignments batchStatsSetColumns = true := by decide
  have hni : items.isEmpty = false := by
    cases items with
    | nil => exact absurd rfl hne
    | cons a as => rfl
  constructor
  · simp [create_embeddings_batch, h, hni, pgRunUpdateWhereId, hd]
  · exact batchValuesClauses_length items.length 1

/-- C2 witness: a batch of three items with content lengths 5, 6 and 7 into
the fresh store `s1` inserts the three rows with one statement, then fails
in the statistics update: counters and `usage_bytes` stay at zero instead of
gaining 3 and 18. -/
theorem create_embeddings_batch_stats_update_always_errors_witness :
    (create_embeddings_batch wState ["e1", "e2", "e3"] 5 "s1" wItems =
      ((.error (.internal "Failed to create embeddings batch: multiple assignments to same column"),
        ⟨[wStore], [⟨"e1", "s1", "12345", [1], []⟩, ⟨"e2", "s1", "123456", [2], []⟩,
                    ⟨"e3", "s1", "1234567", [3], []⟩]⟩),
       [.storeCheck, .insertStatement 3, .statsUpdate]) ∧
      (batchValuesClauses 3 1).length = 3) :=
  create_embeddings_batch_stats_update_always_errors wState ["e1", "e2", "e3"] 5 "s1" wItems
    (by decide) (by decide)

/-- C3: the similarity score of every returned search row equals
`max(0, 1 - d/2)` for the row's computed cosine distance `d`; the transform
maps every distance in `[0, 2]` into `[0, 1]`; and distance 0 gives score 1.
The last conjunct ties every returned result to an actual matching table
row whose computed distance produced the score. -/
theorem search_score_transform :
    (∀ d : Rat, similarity_score d = max 0 (1 - d / 2)) ∧
    (∀ d : Rat, 0 ≤ d → d ≤ 2 → 0 ≤ similarity_score d ∧ similarity_score d ≤ 1) ∧
    similarity_score 0 = 1 ∧
    (∀ (stores : List StoreRow) (table : List EmbeddingRow)
        (provider : Except String (List (List Rat))) (cfg : EmbeddingConfig)
        (dist : List Rat → Rat) (sid q : String) (l : Option Int)
        (filt : List (String × PyVal)) (rm : Option Bool) (resp : SearchResponse),
      (search_vector_store stores table provider cfg dist sid q l filt rm).1 = .ok resp →
      ∀ res ∈ resp.data, ∃ row : EmbeddingRow, row ∈ table ∧
        rowPassesWhere sid (buildFilterConds filt) row = true ∧
        res.score = similarity_score (dist row.embedding) ∧ res.file_id = row.id) := by
  refine ⟨fun d => rfl, fun d h0 h2 => ⟨le_max_left _ _, ?_⟩, by norm_num [similarity_score], ?_⟩
  · apply max_le
    · norm_num
    · linarith
  · intro stores table provider cfg dist sid q l filt rm resp h res hres
    rw [search_ok_data stores table provider cfg dist sid q l filt rm resp h] at hres
    rw [List.mem_map] at hres
    obtain ⟨sr, hsr, rfl⟩ := hres
    have hsr2 : sr ∈ (table.filter (rowPassesWhere sid (buildFilterConds filt))).map
        (fun r => SearchRow.mk r (dist r.embedding)) := by
      have := List.mem_of_mem_take hsr
      rwa [List.mem_insertionSort] at this
    rw [List.mem_map] at hsr2
    obtain ⟨row, hrow, rfl⟩ := hsr2
    rw [List.mem_filter] at hrow
    exact ⟨row, hrow.1, hrow.2, rfl, rfl⟩

/-- C3 witness: at distance 1 the score lies in `[0, 1]`. -/
theorem search_score_transform_witness :
    0 ≤ similarity_score 1 ∧ similarity_score 1 ≤ 1 :=
  search_score_transform.2.1 1 (by norm_num) (by norm_num)

/-- C4: every successful search returns at most
`min(requested_limit defaulted to 20, 100)` results (`search_effective_limit`
is the code's defaulting from src/main.py line 245, where an absent or zero
limit becomes 20 — see C10), and because the distance-to-score transform is
monotone non-increasing, the ascending-distance ordering makes the returned
scores non-increasing. -/
theorem search_limit_cap_and_score_order
    (stores : List StoreRow) (table : List EmbeddingRow)
    (provider : Except String (List (List Rat))) (cfg : EmbeddingConfig)
    (dist : List Rat → Rat) (sid q : String) (l : Option Int)
    (filt : List (String × PyVal)) (rm : Option Bool) (resp : SearchResponse)
    (h : (search_vector_store stores table provider cfg dist sid q l filt rm).1 = .ok resp) :
    resp.data.length ≤ (search_effective_limit l).toNat ∧
    List.Pairwise (fun a b : SearchResultOut => b.score ≤ a.score) resp.data := by
  rw [search_ok_data stores table provider cfg dist sid q l filt rm resp h]
  constructor
  · rw [List.length_map]
    exact List.length_take_le _ _
  · have hsorted : List.Pairwise (fun a b : SearchRow => a.distance ≤ b.distance)
        (List.insertionSort (fun a b : SearchRow => a.distance ≤ b.distance)
          ((table.filter (rowPassesWhere sid (buildFilterConds filt))).map
            fun r => SearchRow.mk r (dist r.embedding))) := by
      haveI : IsTotal SearchRow (fun a b => a.distance ≤ b.distance) :=
        ⟨fun a b => le_total _ _⟩
      haveI : IsTrans SearchRow (fun a b => a.distance ≤ b.distance) :=
        ⟨fun a b c hab hbc => le_trans hab hbc⟩
      exact List.sorted_insertionSort _ _
    have htake := hsorted.sublist
      (List.take_sublist (search_effective_limit l).toNat _)
    exact htake.map _ (fun a b hab => similarity_score_antitone hab)

/-- C4 witness: a concrete search over one stored row at distance 1 returns
one result, within the default limit and trivially sorted. -/
theorem search_limit_cap_and_score_order_witness :
    (⟨"q", [⟨"e1", "document.txt", 1/2, some [], "hi"⟩], false⟩ : SearchResponse).data.length ≤
      (search_effective_limit none).toNat ∧
    List.Pairwise (fun a b : SearchResultOut => b.score ≤ a.score)
      (⟨"q", [⟨"e1", "document.txt", 1/2, some [], "hi"⟩], false⟩ : SearchResponse).data :=
  search_limit_cap_and_score_order [wStore] [wRow] (.ok [[1, 0]]) wCfg (fun _ => 1)
    "s1" "q" none [] (some true) ⟨"q", [⟨"e1", "document.txt", 1/2, some [], "hi"⟩], false⟩
    (by norm_num [search_vector_store, generate_embedding, wCfg, wStore, wRow,
      defaultEmbeddingConfig, runSimilarityQuery, search_effective_limit, pyIntOr,
      rowPassesWhere, buildFilterConds, List.insertionSort, List.orderedInsert,
      similarity_score, jsonbText])

/-- C5: searching a nonexistent store fails with the not-found error and an
empty trace of external calls: the embedding provider is never called and no
similarity query is constructed or executed, so no results of any kind are
produced. -/
theorem search_unknown_store_short_circuits
    (stores : List StoreRow) (table : List EmbeddingRow)
    (provider : Except String (List (List Rat))) (cfg : EmbeddingConfig)
    (dist : List Rat → Rat) (sid q : String) (l : Option Int)
    (filt : List (String × PyVal)) (rm : Option Bool)
    (h : (stores.any fun r => r.id = sid) = false) :
    search_vector_store stores table provider cfg dist sid q l filt rm =
      (.error (.notFound "Vector store not found"), []) := by
  simp [search_vector_store, h]

/-- C5 witness: searching the id "missing" when only `s1` exists. -/
theorem search_unknown_store_short_circuits_witness :
    search_vector_store [wStore] [] (.ok [[1, 0]]) defaultEmbeddingConfig
      (fun _ => 0) "missing" "q" none [] none =
      (.error (.notFound "Vector store not found"), []) :=
  search_unknown_store_short_circuits [wStore] [] (.ok [[1, 0]]) defaultEmbeddingConfig
    (fun _ => 0) "missing" "q" none [] none (by decide)

/-- C6 counterexample: the claim quantifies over every ListStores call, but a
requested limit of -1 is NOT clamped to a minimum of 1 and breaks the
`has_more` equivalence: on an empty table (zero matching rows) the call
succeeds with `has_more = true`, because the query runs with `LIMIT 0`,
`len(results) > -1` always holds, and the Python slice `results[:-1]` stays
empty.  The effective limit is -1, not at least 1. -/
theorem list_stores_negative_limit_breaks_has_more :
    list_vector_stores [] (some (-1)) none none = .ok ⟨[], none, none, true⟩ ∧
    (([] : List StoreRow).filter (listMatches none none)).length = 0 ∧
    list_effective_limit (some (-1)) = -1 := by decide

/-- C6 amended: for every ListStores call whose requested limit is absent or
non-negative, the effective limit is clamped to at most 100 with default 20
and minimum 1 (zero and absent both default to 20), the call succeeds, the
returned page holds at most the effective limit of stores (the lookahead row
is removed), and `has_more` is true iff strictly more matching rows exist
beyond the page. -/
theorem list_stores_page_and_has_more
    (stores : List StoreRow) (limit : Option Int) (after before : Option String)
    (h : ∀ v, limit = some v → 0 ≤ v) :
    1 ≤ list_effective_limit limit ∧ list_effective_limit limit ≤ 100 ∧
    ∃ resp, list_vector_stores stores limit after before = .ok resp ∧
      resp.data.length ≤ (list_effective_limit limit).toNat ∧
      (resp.has_more = true ↔
        (list_effective_limit limit).toNat < (stores.filter (listMatches after before)).length) := by
  have hlim1 : 1 ≤ list_effective_limit limit := by
    unfold list_effective_limit pyIntOr
    cases limit with
    | none => decide
    | some v =>
      have := h v rfl
      simp only
      by_cases hv : v = 0
      · simp [hv]
      · have : 1 ≤ v := by omega
        simp [hv]
        omega
  refine ⟨hlim1, min_le_right _ _, ?_⟩
  unfold list_vector_stores
  have hnn : ¬ (list_effective_limit limit + 1 < 0) := by omega
  simp only [hnn, if_false]
  set lim := list_effective_limit limit with hldef
  set sorted := List.insertionSort (fun a b : StoreRow => b.created_at ≤ a.created_at)
    (stores.filter (listMatches after before)) with hsorted
  have hslen : sorted.length = (stores.filter (listMatches after before)).length :=
    (List.perm_insertionSort _ _).length_eq
  set results := sorted.take (lim + 1).toNat with hres
  have hreslen : results.length = min ((lim + 1).toNat) sorted.length := by
    simp [hres, List.length_take]
  by_cases hm : lim < (results.length : Int)
  · simp only [hm, decide_True, if_true]
    refine ⟨_, rfl, ?_, ?_⟩
    · have h0 : 0 ≤ lim := by omega
      simp only [pySliceTo, h0, if_true, List.length_take]
      omega
    · simp only [true_iff]
      omega
  · simp only [hm, decide_False, Bool.false_eq_true, if_false]
    refine ⟨_, rfl, ?_, ?_⟩
    · show results.length ≤ lim.toNat
      omega
    · simp only [Bool.false_eq_true, false_iff]
      omega

/-- C6 amended witness: listing two stores with limit 1 returns a one-store
page with `has_more = true`. -/
theorem list_stores_page_and_has_more_witness :
    1 ≤ list_effective_limit (some 1) ∧ list_effective_limit (some 1) ≤ 100 ∧
    ∃ resp, list_vector_stores [storeA, storeB] (some 1) none none = .ok resp ∧
      resp.data.length ≤ (list_effective_limit (some 1)).toNat ∧
      (resp.has_more = true ↔
        (list_effective_limit (some 1)).toNat <
          (([storeA, storeB] : List StoreRow).filter (listMatches none none)).length) :=
  list_stores_page_and_has_more [storeA, storeB] (some 1) none none
    (fun v hv => by injection hv with hv; omega)

/-- C7: a batch insert with an empty item list against an existing store is
rejected with the 400 validation error; the database state is returned
unchanged (no rows written, no counter mutation) and only the store-check
statement ran. -/
theorem create_embeddings_batch_empty_rejected
    (st : DbState) (newIds : List String) (now : Int) (sid : String)
    (h : (st.stores.any fun r => r.id = sid) = true) :
    create_embeddings_batch st newIds now sid [] =
      ((.error (.badRequest "No embeddings provided"), st), [.storeCheck]) := by
  simp [create_embeddings_batch, h]

/-- C7 witness: an empty batch against the fresh store `s1`. -/
theorem create_embeddings_batch_empty_rejected_witness :
    create_embeddings_batch wState [] 5 "s1" [] =
      ((.error (.badRequest "No embeddings provided"), wState), [.storeCheck]) :=
  create_embeddings_batch_empty_rejected wState [] 5 "s1" (by decide)

/-- C8: the search query construction adds exactly one equality condition
per filter key/value pair (same count, and the i-th rendered condition
compares the metadata text at parameter `p + 2*i` with the value parameter
`p + 2*i + 1`), and the executed `WHERE` clause is the conjunction (`AND`)
of the store-id equality with one exact-match text equality per pair —
nothing but equalities, so no range or partial matching is expressible. -/
theorem search_filter_conditions (metadataField : String) (filters : List (String × PyVal)) :
    (buildFilterConds filters).length = filters.length ∧
    (∀ p, (renderFilterFragment metadataField p filters).length = filters.length) ∧
    (∀ p i, i < filters.length →
      (renderFilterFragment metadataField p filters)[i]? =
        some (renderFilterCond metadataField (p + 2 * i))) ∧
    (∀ sid row, rowPassesWhere sid (buildFilterConds filters) row =
      (decide (row.vector_store_id = sid) &&
        filters.all fun kv => decide (jsonbText row.metadata kv.1 = some (pyStr kv.2)))) := by
  refine ⟨by simp [buildFilterConds], renderFilterFragment_length metadataField filters,
    renderFilterFragment_get metadataField filters, ?_⟩
  intro sid row
  unfold rowPassesWhere
  congr 1
  induction filters with
  | nil => rfl
  | cons kv rest ih =>
    simp only [buildFilterConds, List.map_cons, List.all_cons] at *
    rw [evalFilterCond_decide, ih]

/-- C8 witness: with two filters and the source's starting parameter index
3, the second condition uses parameters 5 and 6. -/
theorem search_filter_conditions_witness :
    (renderFilterFragment "metadata" 3 wFilters)[1]? = some (renderFilterCond "metadata" 5) :=
  (search_filter_conditions "metadata" wFilters).2.2.1 3 1 (by decide)

/-- C9: the embedding-service wrapper returns a vector only when its length
equals the configured dimensionality; a provider failure or a wrong
dimensionality is surfaced as an error, never as a mismatched vector. -/
theorem generate_embedding_dimension_ok (cfg : EmbeddingConfig)
    (resp : Except String (List (List Rat))) (v : List Rat)
    (h : generate_embedding cfg resp = .ok v) : v.length = cfg.dimensions := by
  cases resp with
  | error e => simp [generate_embedding] at h
  | ok data =>
    cases data with
    | nil => simp [generate_embedding] at h
    | cons emb rest =>
      by_cases hl : emb.length = cfg.dimensions
      · simp [generate_embedding, hl] at h
        subst h
        exact hl
      · simp [generate_embedding, hl] at h

/-- C9 witness: a provider response with a 2-vector under dimensionality 2. -/
theorem generate_embedding_dimension_ok_witness :
    ([(1 : Rat), 2] : List Rat).length = (⟨"m", "u", "k", 2⟩ : EmbeddingConfig).dimensions :=
  generate_embedding_dimension_ok ⟨"m", "u", "k", 2⟩ (.ok [[1, 2]]) [1, 2] rfl

/-- C10: in both the store-listing and the search handler, an absent or zero
requested limit is replaced by the default 20 before the 100-cap, so the
effective limit is at least 1 in those cases. -/
theorem effective_limit_zero_or_absent_defaults (l : Option Int)
    (h : l = none ∨ l = some 0) :
    list_effective_limit l = 20 ∧ search_effective_limit l = 20 ∧
    1 ≤ list_effective_limit l ∧ 1 ≤ search_effective_limit l := by
  rcases h with h | h <;> subst h <;> decide

/-- C10 witness: a requested limit of 0. -/
theorem effective_limit_zero_or_absent_defaults_witness :
    list_effective_limit (some 0) = 20 ∧ search_effective_limit (some 0) = 20 ∧
    1 ≤ list_effective_limit (some 0) ∧ 1 ≤ search_effective_limit (some 0) :=
  effective_limit_zero_or_absent_defaults (some 0) (Or.inr rfl)

end LitellmPgvector
